import Mathlib

/-!
Verification of the `mts_contest` content-analytics service.

This file shallowly embeds the decision logic of the repository's three
service modules, and proves the frozen claims about them:

  * `services/llm_client.py`   — item normalization, question classification,
    top-N detection, metric sorting and summary statistics;
  * `services/youtube_client.py` — channel-reference resolution, URL
    sub-parsing, and the TTL result cache;
  * `services/mws_client.py`   — deduplicating upsert into the table store.

Python strings are modelled as Lean `String` (lists of characters), and the
handful of Python string primitives the code uses (`in`, `split`, `strip`,
`lower`, `re.findall("\d+", ...)`, `int(...)` truncation) are given explicit
executable models below.  Machine integers are `Int` (Python ints are
unbounded).  Python float division is modelled as exact rational division
(`ℚ`); `time.time()` values are rationals passed explicitly.  Network calls
are not performed: functions that would call the network instead *return a
description of the call they would make* (see `ResolveOutcome`).
-/

namespace MtsContest

/-! ## Python string primitives -/

/-- Boolean prefix test on character lists (`list` model of `str.startswith`
and of the prefix checks used by `split`). -/
def isPrefixL : List Char → List Char → Bool
  | [], _ => true
  | _ :: _, [] => false
  | a :: as, b :: bs => a == b && isPrefixL as bs

/-- Python's substring test `sub in s` on character lists. -/
def containsSub (sub : List Char) : List Char → Bool
  | [] => isPrefixL sub []
  | c :: rest => isPrefixL sub (c :: rest) || containsSub sub rest

/-- The longest prefix of `l` not containing an occurrence of `sep`:
Python's `l.split(sep)[0]` for a non-empty separator. -/
def beforeFirstAux (sep : List Char) : List Char → List Char
  | [] => []
  | c :: rest => if isPrefixL sep (c :: rest) then [] else c :: beforeFirstAux sep rest

/-- The remainder of `l` after the first occurrence of `sep` (scanning left
to right), or `none` if `sep` does not occur.  Helper for `afterLast`. -/
def remAfterFirst (sep : List Char) : List Char → Option (List Char)
  | [] => none
  | c :: rest =>
    if isPrefixL sep (c :: rest) then some (List.drop (sep.length - 1) rest)
    else remAfterFirst sep rest

/-- Fuel-indexed scan: repeatedly jump past the next occurrence of `sep`.
With `fuel ≥ l.length` this computes Python's `l.split(sep)[-1]` for a
non-empty separator (the suffix after the last non-overlapping occurrence,
or `l` itself when there is none). -/
def afterLastAux (sep : List Char) : Nat → List Char → List Char
  | _, [] => []
  | 0, l => l
  | fuel + 1, c :: rest =>
    match remAfterFirst sep (c :: rest) with
    | none => c :: rest
    | some rem => afterLastAux sep fuel rem

/-- Python's `l.split(sep)[-1]` for a non-empty separator. -/
def afterLast (sep l : List Char) : List Char := afterLastAux sep l.length l

/-- Python `sub in s`. -/
def pyIn (sub s : String) : Bool := containsSub sub.data s.data

/-- Python `s.split(sep)[0]` (non-empty separator). -/
def pySplitHead (sep s : String) : String := ⟨beforeFirstAux sep.data s.data⟩

/-- Python `s.split(sep)[-1]` (non-empty separator). -/
def pySplitLast (sep s : String) : String := ⟨afterLast sep.data s.data⟩

/-- Python `str.startswith`. -/
def pyStartsWith (s pre : String) : Bool := isPrefixL pre.data s.data

/-- The characters Python's `str.strip()` removes. -/
def isPySpace (c : Char) : Bool :=
  c == ' ' || c == '\t' || c == '\n' || c == '\r' || c == Char.ofNat 11 || c == Char.ofNat 12

/-- Python `str.strip()` (no arguments): whitespace removed from both ends. -/
def pyStrip (s : String) : String :=
  ⟨((s.data.dropWhile isPySpace).reverse.dropWhile isPySpace).reverse⟩

/-- Python `str.lower()`, modelled for the alphabets the code's keyword
tables use: ASCII letters and the Russian Cyrillic block (А–Я and Ё).
Other characters are left unchanged. -/
def pyLowerChar (c : Char) : Char :=
  if 'A' ≤ c && c ≤ 'Z' then Char.ofNat (c.toNat + 32)
  else if c == 'Ё' then 'ё'
  else if 'А' ≤ c && c ≤ 'Я' then Char.ofNat (c.toNat + 32)
  else c

/-- Python `str.lower()` lifted to strings. -/
def pyLower (s : String) : String := ⟨s.data.map pyLowerChar⟩

/-- Maximal runs of decimal digits: the matches of `re.findall(r"\d+", s)`
(modelled for ASCII digits). Helper `cur` carries the current run reversed. -/
def digitRunsAux : List Char → List Char → List (List Char)
  | [], cur => if cur.isEmpty then [] else [cur.reverse]
  | c :: rest, cur =>
    if c.isDigit then digitRunsAux rest (c :: cur)
    else if cur.isEmpty then digitRunsAux rest []
    else cur.reverse :: digitRunsAux rest []

/-- All maximal digit runs in a character list, left to right. -/
def digitRuns (l : List Char) : List (List Char) := digitRunsAux l []

/-- Python `int(...)` applied to a non-empty string of decimal digits. -/
def natOfDigits (ds : List Char) : Nat :=
  ds.foldl (fun n c => 10 * n + (c.toNat - 48)) 0

/-- Python `int(...)` applied to a float/rational: truncation toward zero. -/
def pyInt (q : ℚ) : Int := q.num.tdiv (q.den : Int)

/-! ## `services/llm_client.py` — data model -/

/-- A raw content item as consumed by `_normalize_items` (`llm_client.py`
lines 26–62).  The Python code reads these fields out of a dict, defaulting
absent or unparseable values: `platform` → `"YouTube"`, `title` →
`"Без названия"`, `url` → `""`, counts → `0`.  The structure models the
post-default field values; the counts are unbounded integers. -/
structure RawItem where
  platform : String
  title : String
  url : String
  views : Int
  likes : Int
  comments_count : Int
deriving DecidableEq

/-- A normalized item as produced by `_normalize_items`: the raw fields plus
the computed `engagement_rate`. -/
structure NItem where
  platform : String
  title : String
  url : String
  views : Int
  likes : Int
  comments_count : Int
  engagement_rate : ℚ
deriving DecidableEq

/-- One step of `_normalize_items` (`llm_client.py` lines 32–61): compute
`engagement_rate = (likes + comments) / views` when `views > 0`, else `0.0`
(float division modelled as exact division in `ℚ`). -/
def normalizeOne (it : RawItem) : NItem :=
  let views := it.views
  let likes := it.likes
  let comments := it.comments_count
  let engagement_rate : ℚ :=
    if 0 < views then ((likes : ℚ) + (comments : ℚ)) / (views : ℚ) else 0
  ⟨it.platform, it.title, it.url, views, likes, comments, engagement_rate⟩

/-- `_normalize_items` (`llm_client.py` lines 26–62): the loop appends one
normalized record per input record, i.e. a map. -/
def _normalize_items (items : List RawItem) : List NItem := items.map normalizeOne

/-! ## `services/llm_client.py` — `_detect_top_n` -/

/-- The `words_map` dict of `_detect_top_n` (`llm_client.py` lines 85–92),
in Python dict insertion order. -/
def words_map : List (String × Int) :=
  [("три", 3), ("топ-3", 3), ("топ 3", 3), ("пять", 5), ("топ-5", 5), ("топ 5", 5)]

/-- `_detect_top_n` (`llm_client.py` lines 65–97): lower-case the question;
if the text has digit runs, take the last one and return it when it lies in
`[1, 10]` (otherwise fall through); then return the first `words_map` entry
whose key occurs in the text; then the default. -/
def _detect_top_n (question : String) (default : Int := 3) : Int :=
  let q := pyLower question
  let nums := digitRuns q.data
  let viaDigits : Option Int :=
    match nums.getLast? with
    | none => none
    | some ds =>
      let n : Int := (natOfDigits ds : Int)
      if 1 ≤ n ∧ n ≤ 10 then some n else none
  match viaDigits with
  | some n => n
  | none =>
    match words_map.find? (fun p => pyIn p.1 q) with
    | some p => p.2
    | none => default

/-! ## `services/llm_client.py` — `_classify_question` -/

/-- The classification result of `_classify_question`: the metric string
(`"views"` or `"engagement"`), the direction flag and the recommendation
flag (`llm_client.py` lines 132–136). -/
structure QInfo where
  metric : String
  worst : Bool
  recommend : Bool
deriving DecidableEq

/-- `_classify_question` (`llm_client.py` lines 100–136).  Note the order of
the metric checks: the popularity keywords are tested first; the
engagement/likes/comments keywords only in the `elif`. -/
def _classify_question (question : String) : QInfo :=
  let q := pyLower question
  let by_engagement := pyIn "вовлеч" q || pyIn "engagement" q
  let by_likes := pyIn "лайк" q || pyIn "реакц" q
  let by_comments := pyIn "коммент" q
  let worst := pyIn "худш" q || pyIn "плох" q || pyIn "низк" q
  let recommend :=
    pyIn "что делать" q || pyIn "как улучшить" q || pyIn "рекомендац" q || pyIn "совет" q
  let metric :=
    if pyIn "популяр" q || pyIn "больше всего просмотров" q || pyIn "самое популярное" q then
      "views"
    else if by_engagement || by_likes || by_comments then
      "engagement"
    else
      "views"
  ⟨metric, worst, recommend⟩

/-! ## `services/llm_client.py` — `_sort_items` and the generator core -/

/-- The sort key selected by `_sort_items` (`llm_client.py` lines 145–148):
the `engagement_rate` field when `metric == "engagement"`, else the `views`
field (cast into `ℚ` so both keys live in one ordered type). -/
def keyOf (metric : String) (x : NItem) : ℚ :=
  if metric = "engagement" then x.engagement_rate else (x.views : ℚ)

/-- Stable insertion step: keep scanning past `h` while `keep h x` holds,
and place `x` in front of the first element it need not stay behind. -/
def pyInsert {α : Type} (keep : α → α → Bool) (x : α) : List α → List α
  | [] => [x]
  | h :: t => if keep h x then h :: pyInsert keep x t else x :: h :: t

/-- Stable sort by repeated insertion (elements inserted right-to-left, so
each element lands in front of later equal elements — the stability contract
of Python's `sorted`). -/
def pySortBy {α : Type} (keep : α → α → Bool) : List α → List α
  | [] => []
  | x :: xs => pyInsert keep x (pySortBy keep xs)

/-- Python `sorted(l, key=key, reverse=reverse)`: a stable sort, descending
on the key when `reverse` is true, ascending otherwise.  Python's `sorted`
is specified as a stable mergesort; any stable sort with the same ordering
computes the same list, and is modelled here by stable insertion. -/
def pySorted {α : Type} (key : α → ℚ) (reverse : Bool) : List α → List α :=
  pySortBy (fun h x => if reverse then decide (key x < key h) else decide (key h < key x))

/-- `_sort_items` (`llm_client.py` lines 139–151): sort by the metric key,
`reverse = not worst`. -/
def _sort_items (normalized : List NItem) (metric : String) (worst : Bool) : List NItem :=
  pySorted (keyOf metric) (!worst) normalized

/-- `_summary_stats` (`llm_client.py` lines 154–166): mean views and mean
engagement rate over the whole sample, `(0, 0)` for an empty list. -/
def _summary_stats (normalized : List NItem) : ℚ × ℚ :=
  if normalized = [] then (0, 0)
  else
    let n : ℚ := (normalized.length : ℚ)
    (((normalized.map (fun it => (it.views : ℚ))).sum) / n,
     ((normalized.map (fun it => it.engagement_rate)).sum) / n)

/-- The ranking core of `_generate_local_answer` (`llm_client.py` lines
201–202): `top_list = _sort_items(...)[: top_n]`.  The surrounding report
rendering (string formatting) is not modelled. -/
def topListFor (normalized : List NItem) (metric : String) (worst : Bool) (top_n : Nat) :
    List NItem :=
  (_sort_items normalized metric worst).take top_n

/-! ## `services/youtube_client.py` — URL sub-parsing -/

/-- The result dict of `_extract_ids_from_url` (`youtube_client.py` lines
56–60): at most one of the three identifiers is populated. -/
structure ExtractResult where
  channel_id : Option String
  handle : Option String
  video_id : Option String
deriving DecidableEq

/-- `_extract_ids_from_url` (`youtube_client.py` lines 50–91): strip the raw
string, then dispatch on the first matching URL shape (short video link,
long video link, channel link, handle link); extraction is by Python string
`split`s, exactly as in the source. -/
def _extract_ids_from_url (raw : String) : ExtractResult :=
  let s := pyStrip raw
  if pyIn "youtu.be/" s then
    let video_id := pySplitLast "youtu.be/" s
    let video_id := pySplitHead "&" (pySplitHead "?" video_id)
    ⟨none, none, some video_id⟩
  else if pyIn "youtube.com/watch" s && pyIn "v=" s then
    let after_v := pySplitLast "v=" s
    let video_id := pySplitHead "?" (pySplitHead "&" after_v)
    ⟨none, none, some video_id⟩
  else if pyIn "youtube.com/channel/" s then
    let after := pySplitLast "youtube.com/channel/" s
    let channel_id := pySplitHead "&" (pySplitHead "?" (pySplitHead "/" after))
    ⟨some channel_id, none, none⟩
  else if pyIn "youtube.com/@" s then
    let after := pySplitLast "youtube.com/@" s
    let handle := pySplitHead "&" (pySplitHead "?" (pySplitHead "/" after))
    ⟨none, some ("@" ++ handle), none⟩
  else
    ⟨none, none, none⟩

/-! ## `services/youtube_client.py` — channel resolution -/

/-- The ways `_resolve_channel_id` can terminate before any network traffic:
raising (`YouTubeAPIError`) or returning a channel id directly. -/
inductive ResolveErr where
  /-- `_require_api_key` raised: `YOUTUBE_API_KEY` is unset (line 23). -/
  | noApiKey : ResolveErr
  /-- the default-channel branch raised: `YOUTUBE_CHANNEL_ID` is unset
  (lines 197–199, "Канал по умолчанию не задан"). -/
  | noDefault : ResolveErr
deriving DecidableEq

/-- The outcome of `_resolve_channel_id`.  The constructors `ok` and `err`
involve no network call; the three `via…` constructors describe the single
upstream lookup the code would now perform (`channels?forHandle`, the
videos API, or the channel search API). -/
inductive ResolveOutcome where
  | err : ResolveErr → ResolveOutcome
  | ok : String → ResolveOutcome
  | viaHandle : String → ResolveOutcome
  | viaVideo : String → ResolveOutcome
  | viaSearch : String → ResolveOutcome
deriving DecidableEq

/-- `_resolve_channel_id` (`youtube_client.py` lines 182–230).  Module
state is passed explicitly: `apiKeySet` models `YOUTUBE_API_KEY` being
set, `defaultId` models `YOUTUBE_CHANNEL_ID` (`none` = unset; `some ""` is
falsy in Python and treated as unset too).  The function first requires the
API key, then walks the prioritized branch chain of the source. -/
def _resolve_channel_id (apiKeySet : Bool) (defaultId : Option String)
    (channel : Option String) : ResolveOutcome :=
  if !apiKeySet then .err .noApiKey
  else if channel = none ∨ pyStrip (channel.getD "") = "" then
    match defaultId with
    | none => .err .noDefault
    | some d => if d = "" then .err .noDefault else .ok d
  else
    let c := pyStrip (channel.getD "")
    if pyStartsWith c "UC" && decide (20 ≤ c.data.length) then .ok c
    else if pyStartsWith c "@" then .viaHandle c
    else if pyStartsWith c "http://" || pyStartsWith c "https://" then
      let ids := _extract_ids_from_url c
      match ids.video_id with
      | some v => .viaVideo v
      | none =>
        match ids.channel_id with
        | some cid => .ok cid
        | none =>
          match ids.handle with
          | some h => .viaHandle h
          | none => .viaSearch c
    else .viaSearch c

/-! ## `services/youtube_client.py` — the result cache -/

/-- The module-level `_CACHE` dict (`youtube_client.py` line 28), modelled
as a lookup function from `(channel_id, max_results)` keys. -/
def Cache (α : Type) : Type := String × Int → Option (ℚ × List α)

/-- A cache with no entries. -/
def emptyCache {α : Type} : Cache α := fun _ => none

/-- `_CACHE_TTL_SECONDS` (`youtube_client.py` line 29). -/
def _CACHE_TTL_SECONDS : ℚ := 60

/-- `_cache_set` (`youtube_client.py` lines 43–45); the current
`time.time()` is the explicit argument `now`. -/
def _cache_set {α : Type} (cache : Cache α) (channel_id : String) (max_results : Int)
    (now : ℚ) (data : List α) : Cache α :=
  fun key => if key = (channel_id, max_results) then some (now, data) else cache key

/-- `_cache_get` (`youtube_client.py` lines 32–40): absent key → `none`;
entry older than the TTL → `none`; otherwise the stored list. -/
def _cache_get {α : Type} (cache : Cache α) (now : ℚ) (channel_id : String)
    (max_results : Int) : Option (List α) :=
  match cache (channel_id, max_results) with
  | none => none
  | some (ts, data) => if _CACHE_TTL_SECONDS < now - ts then none else some data

/-! ## `services/mws_client.py` — deduplicating upsert -/

/-- A record already present in the MWS datasheet, reduced to the one field
`upsert_content_items` consults: its `external_id` (`""` models a record
whose `external_id` field is absent/empty, which Python's `if ext_id:`
skips). -/
structure MWSRecord where
  external_id : String
deriving DecidableEq

/-- An input item of `upsert_content_items`, with the fields the function
reads (`mws_client.py` lines 123 and 133–150). -/
structure ContentItemIn where
  platform : String
  external_id : String
  url : String
  title : String
  views : Int
  likes : Int
  comments_count : Int
deriving DecidableEq

/-- The `fields` payload built for one created record (`mws_client.py`
lines 133–151), with `engagement_rate = (likes + comments) / views` when
`views > 0`, else `0`. -/
structure PayloadFields where
  platform : String
  external_id : String
  url : String
  title : String
  views : Int
  likes : Int
  comments_count : Int
  engagement_rate : ℚ
deriving DecidableEq

/-- Payload construction for one new item (`mws_client.py` lines 133–151).
`x or 0` on an integer is the identity (`0 or 0 == 0`), so the counts pass
through unchanged. -/
def payloadOf (item : ContentItemIn) : PayloadFields :=
  let views := item.views
  let likes := item.likes
  let comments := item.comments_count
  let engagement_rate : ℚ :=
    if 0 < views then ((likes : ℚ) + (comments : ℚ)) / (views : ℚ) else 0
  ⟨item.platform, item.external_id, item.url, item.title, views, likes, comments,
    engagement_rate⟩

/-- The `existing_external_ids` set (`mws_client.py` lines 112–118): the
non-empty `external_id`s of the records already in the datasheet (a list
here; only membership is ever used). -/
def existing_external_ids (records : List MWSRecord) : List String :=
  (records.map (fun r => r.external_id)).filter (fun e => !(e == ""))

/-- The `new_items` filter (`mws_client.py` lines 121–124): keep the items
whose `external_id` is not among the existing ones. -/
def new_items (records : List MWSRecord) (items : List ContentItemIn) :
    List ContentItemIn :=
  items.filter (fun item => !(existing_external_ids records).contains item.external_id)

/-- `upsert_content_items` (`mws_client.py` lines 84–167) on the success
path: returns the count `len(new_items)` together with the records the POST
creates (one payload per new item).  Transport errors raise and create
nothing; they are outside this model. -/
def upsert_content_items (records : List MWSRecord) (items : List ContentItemIn) :
    Nat × List PayloadFields :=
  let ni := new_items records items
  (ni.length, ni.map payloadOf)

/-- The datasheet rows added by a successful upsert, viewed as store
records (each created record carries its payload's `external_id`). -/
def created_records (records : List MWSRecord) (items : List ContentItemIn) :
    List MWSRecord :=
  (upsert_content_items records items).2.map (fun p => ⟨p.external_id⟩)

/-! ## Lemmas about the stable-insertion model of `sorted` -/

section SortLemmas

variable {α : Type} {keep : α → α → Bool}

theorem pyInsert_perm (x : α) (l : List α) : (pyInsert keep x l).Perm (x :: l) := by
  induction l with
  | nil => exact List.Perm.refl _
  | cons h t ih =>
    by_cases hk : keep h x = true
    · simpa [pyInsert, hk] using (ih.cons h).trans (List.Perm.swap x h t)
    · simp [pyInsert, hk]

theorem pySortBy_perm (l : List α) : (pySortBy keep l).Perm l := by
  induction l with
  | nil => exact List.Perm.refl _
  | cons x xs ih => exact (pyInsert_perm x (pySortBy keep xs)).trans (ih.cons x)

theorem mem_pyInsert {y x : α} {l : List α} (h : y ∈ pyInsert keep x l) :
    y = x ∨ y ∈ l := by
  have := ((@pyInsert_perm _ keep x l).mem_iff).mp h
  simpa using this

theorem pyInsert_pairwise
    (hasym : ∀ a b, keep a b = true → keep b a = false)
    (htrans : ∀ a b c, keep b a = false → keep c b = false → keep c a = false)
    {x : α} {l : List α} (hl : l.Pairwise fun a b => keep b a = false) :
    (pyInsert keep x l).Pairwise fun a b => keep b a = false := by
  induction l with
  | nil => simp [pyInsert]
  | cons h t ih =>
    rw [List.pairwise_cons] at hl
    obtain ⟨hhead, htail⟩ := hl
    by_cases hk : keep h x = true
    · rw [pyInsert, if_pos hk, List.pairwise_cons]
      refine ⟨fun y hy => ?_, ih htail⟩
      rcases mem_pyInsert hy with rfl | hyt
      · exact hasym h y hk
      · exact hhead y hyt
    · rw [pyInsert, if_neg hk, List.pairwise_cons]
      have hk' : keep h x = false := by
        cases hkk : keep h x
        · rfl
        · exact absurd hkk hk
      refine ⟨fun y hy => ?_, List.pairwise_cons.mpr ⟨hhead, htail⟩⟩
      rcases List.mem_cons.mp hy with rfl | hyt
      · exact hk'
      · exact htrans x h y hk' (hhead y hyt)

theorem pySortBy_pairwise
    (hasym : ∀ a b, keep a b = true → keep b a = false)
    (htrans : ∀ a b c, keep b a = false → keep c b = false → keep c a = false)
    (l : List α) :
    (pySortBy keep l).Pairwise fun a b => keep b a = false := by
  induction l with
  | nil => simp [pySortBy]
  | cons x xs ih => exact pyInsert_pairwise hasym htrans ih

theorem pyInsert_filter (p : α → Bool)
    (hp : ∀ h x, keep h x = true → p x = true → p h = false) (x : α) :
    ∀ l : List α,
      (pyInsert keep x l).filter p = if p x then x :: l.filter p else l.filter p := by
  intro l
  induction l with
  | nil => cases hpx : p x <;> simp [pyInsert, List.filter, hpx]
  | cons h t ih =>
    by_cases hk : keep h x = true
    · rw [pyInsert, if_pos hk]
      cases hpx : p x
      · cases hph : p h <;> simp_all [List.filter]
      · have hph : p h = false := hp h x hk hpx
        simp_all [List.filter]
    · rw [pyInsert, if_neg hk]
      cases hpx : p x <;> simp [List.filter, hpx]

theorem pySortBy_filter (p : α → Bool)
    (hp : ∀ h x, keep h x = true → p x = true → p h = false) :
    ∀ l : List α, (pySortBy keep l).filter p = l.filter p := by
  intro l
  induction l with
  | nil => rfl
  | cons x xs ih =>
    rw [pySortBy, pyInsert_filter p hp]
    cases hpx : p x <;> simp [List.filter, hpx, ih]

end SortLemmas

/-! ## Lemmas about the string primitives -/

theorem mem_beforeFirstAux {x : Char} {sep l : List Char}
    (h : x ∈ beforeFirstAux sep l) : x ∈ l := by
  induction l with
  | nil => simp [beforeFirstAux] at h
  | cons c rest ih =>
    by_cases hpre : isPrefixL sep (c :: rest) = true
    · simp [beforeFirstAux, hpre] at h
    · rw [beforeFirstAux, if_neg hpre] at h
      rcases List.mem_cons.mp h with rfl | hx
      · exact List.mem_cons_self _ _
      · exact List.mem_cons_of_mem _ (ih hx)

theorem not_mem_beforeFirst_single (c : Char) (l : List Char) :
    c ∉ beforeFirstAux [c] l := by
  induction l with
  | nil => simp [beforeFirstAux]
  | cons c' rest ih =>
    by_cases hc : c = c'
    · subst hc
      simp [beforeFirstAux, isPrefixL]
    · have hpre : isPrefixL [c] (c' :: rest) = false := by
        simp [isPrefixL, hc]
      rw [beforeFirstAux, hpre]
      simp only [Bool.false_eq_true, if_false, List.mem_cons]
      rintro (rfl | hx)
      · exact hc rfl
      · exact ih hx

theorem containsSub_single (c : Char) (l : List Char) :
    containsSub [c] l = true ↔ c ∈ l := by
  induction l with
  | nil => simp [containsSub, isPrefixL]
  | cons c' rest ih =>
    rw [containsSub]
    simp only [isPrefixL, Bool.or_eq_true, Bool.and_eq_true, beq_iff_eq, List.mem_cons, ih]
    constructor
    · rintro (⟨rfl, -⟩ | hx)
      · exact Or.inl rfl
      · exact Or.inr hx
    · rintro (rfl | hx)
      · exact Or.inl ⟨rfl, trivial⟩
      · exact Or.inr hx

/-! ## Claim C10 — resolution always requires the API key -/

/-- Claim C10: channel resolution requires the platform API key regardless
of which branch applies — with `YOUTUBE_API_KEY` unset, `_resolve_channel_id`
raises for every reference and every default, including the branches (empty
reference with a configured default; canonical `UC` id) that perform no
network lookup. -/
theorem resolve_requires_key_c10 (d : Option String) (ch : Option String) :
    _resolve_channel_id false d ch = .err .noApiKey := rfl

/-! ## Claim C7 — empty reference resolves to the default -/

/-- Claim C7: with the API key configured, resolving an empty or absent
reference returns the default channel id when that is non-empty — via the
`ok` outcome, i.e. with no network call — and fails with the
"no default configured" error when the default is unset or empty. -/
theorem resolve_default_c7 (ch : Option String)
    (hch : ch = none ∨ pyStrip (ch.getD "") = "") :
    (∀ d : String, d ≠ "" → _resolve_channel_id true (some d) ch = .ok d) ∧
    _resolve_channel_id true none ch = .err .noDefault ∧
    _resolve_channel_id true (some "") ch = .err .noDefault := by
  refine ⟨fun d hd => ?_, ?_, ?_⟩
  · simp only [_resolve_channel_id]
    rw [if_neg (by simp), if_pos hch]
    simp [hd]
  · simp only [_resolve_channel_id]
    rw [if_neg (by simp), if_pos hch]
  · simp only [_resolve_channel_id]
    rw [if_neg (by simp), if_pos hch]
    simp

/-- Witness for C7: the configured default `"UCDEFAULT00000000000"` is
returned for an absent reference, and with no default the resolution fails. -/
theorem resolve_default_c7_witness :
    _resolve_channel_id true (some "UCDEFAULT00000000000") none = .ok "UCDEFAULT00000000000" ∧
    _resolve_channel_id true none none = .err .noDefault :=
  ⟨(resolve_default_c7 none (Or.inl rfl)).1 "UCDEFAULT00000000000" (by decide),
   (resolve_default_c7 none (Or.inl rfl)).2.1⟩

/-! ## Claim C5 — canonical `UC` ids are returned as-is (corrected) -/

/-- Counterexample to claim C5 as stated: for the reference
`" UC000000000000000000"` (leading space; its stripped form starts with
`UC` and has length 20) the resolver returns the *stripped* string, not the
reference unchanged. -/
theorem resolve_canonical_c5_counterexample :
    pyStartsWith (pyStrip " UC000000000000000000") "UC" = true ∧
    20 ≤ (pyStrip " UC000000000000000000").data.length ∧
    _resolve_channel_id true (some "UCdefault00000000000x") (some " UC000000000000000000") =
      .ok "UC000000000000000000" ∧
    (" UC000000000000000000" : String) ≠ "UC000000000000000000" := by
  refine ⟨by decide, by decide, by decide, by decide⟩

/-- Claim C5 (amended): for every reference `c` whose stripped form starts
with `UC` and has length at least 20, and every default, the resolver (with
the API key configured, cf. C10) returns the stripped reference via the
`ok` outcome — no network call, no validation against the platform.  The
result equals `c` itself whenever `c` carries no surrounding whitespace. -/
theorem resolve_canonical_c5 (c : String) (d : Option String)
    (h1 : pyStartsWith (pyStrip c) "UC" = true)
    (h2 : 20 ≤ (pyStrip c).data.length) :
    _resolve_channel_id true d (some c) = .ok (pyStrip c) := by
  have hne : ¬ ((some c : Option String) = none ∨
      pyStrip ((some c : Option String).getD "") = "") := by
    rintro (h | h)
    · exact Option.noConfusion h
    · have hl : (pyStrip c).data.length = 0 := by
        simp only [Option.getD_some] at h
        rw [h]
        rfl
      omega
  simp only [_resolve_channel_id]
  rw [if_neg (by simp), if_neg hne]
  simp only [Option.getD_some]
  rw [if_pos (by simp only [Bool.and_eq_true, decide_eq_true_eq]; exact ⟨h1, h2⟩)]

/-- Witness for C5 (amended): a canonical id with no surrounding whitespace
is returned unchanged. -/
theorem resolve_canonical_c5_witness :
    _resolve_channel_id true none (some "UC000000000000000000") =
      .ok (pyStrip "UC000000000000000000") ∧
    pyStrip "UC000000000000000000" = "UC000000000000000000" :=
  ⟨resolve_canonical_c5 "UC000000000000000000" none (by decide) (by decide), by decide⟩

/-! ## Claim C8 — the result cache honours its TTL -/

/-- Claim C8: after a `put`, a `get` at most 60 seconds later returns
exactly the stored list, and a `get` more than 60 seconds later returns
`none` — the same answer as for a key that was never stored. -/
theorem cache_ttl_c8 {α : Type} (cache : Cache α) (ch : String) (n : Int)
    (data : List α) (t now : ℚ) :
    (now - t ≤ 60 → _cache_get (_cache_set cache ch n t data) now ch n = some data) ∧
    (60 < now - t → _cache_get (_cache_set cache ch n t data) now ch n = none) ∧
    _cache_get (emptyCache : Cache α) now ch n = none := by
  have hkey : _cache_set cache ch n t data (ch, n) = some (t, data) := by simp [_cache_set]
  refine ⟨fun h => ?_, fun h => ?_, rfl⟩
  · simp [_cache_get, hkey, _CACHE_TTL_SECONDS, not_lt.mpr h]
  · simp [_cache_get, hkey, _CACHE_TTL_SECONDS, h]

/-- Witness for C8: a fresh entry read at the TTL boundary is returned;
one second past the TTL it is gone, just like on an empty cache. -/
theorem cache_ttl_c8_witness :
    _cache_get (_cache_set (emptyCache : Cache ℕ) "UCx" 5 0 [7]) 60 "UCx" 5 = some [7] ∧
    _cache_get (_cache_set (emptyCache : Cache ℕ) "UCx" 5 0 [7]) 61 "UCx" 5 = none :=
  ⟨(cache_ttl_c8 emptyCache "UCx" 5 [7] 0 60).1 (by norm_num),
   (cache_ttl_c8 emptyCache "UCx" 5 [7] 0 61).2.1 (by norm_num)⟩

/-! ## Claim C9 — the engagement-rate formula, in both modules -/

/-- Claim C9: for every item, the normalized `engagement_rate` equals
`(likes + comments_count) / views` when `views > 0` and `0.0` when
`views = 0`; and the analytics normalization (`normalizeOne`, from
`_normalize_items`) and the table-store payload built at upsert time
(`payloadOf`) compute the same value on matching counts. -/
theorem engagement_rate_c9 (r : RawItem) (c : ContentItemIn)
    (hv : r.views = c.views) (hl : r.likes = c.likes)
    (hc : r.comments_count = c.comments_count) :
    (0 < r.views → (normalizeOne r).engagement_rate =
      ((r.likes : ℚ) + (r.comments_count : ℚ)) / (r.views : ℚ)) ∧
    (r.views = 0 → (normalizeOne r).engagement_rate = 0) ∧
    (normalizeOne r).engagement_rate = (payloadOf c).engagement_rate := by
  refine ⟨fun h => ?_, fun h => ?_, ?_⟩
  · simp [normalizeOne, h]
  · simp [normalizeOne, h]
  · simp [normalizeOne, payloadOf, hv, hl, hc]

/-- Witness for C9: an item with 100 views, 30 likes and 20 comments gets
rate `(30 + 20) / 100` from the analytics path, and the upsert payload for
the matching store item carries the same value. -/
theorem engagement_rate_c9_witness :
    (normalizeOne ⟨"YouTube", "t", "u", 100, 30, 20⟩).engagement_rate =
      (((30 : Int) : ℚ) + ((20 : Int) : ℚ)) / ((100 : Int) : ℚ) ∧
    (normalizeOne ⟨"YouTube", "t", "u", 100, 30, 20⟩).engagement_rate =
      (payloadOf ⟨"YouTube", "vid", "u", "t", 100, 30, 20⟩).engagement_rate :=
  ⟨(engagement_rate_c9 ⟨"YouTube", "t", "u", 100, 30, 20⟩
      ⟨"YouTube", "vid", "u", "t", 100, 30, 20⟩ rfl rfl rfl).1 (by norm_num),
   (engagement_rate_c9 ⟨"YouTube", "t", "u", 100, 30, 20⟩
      ⟨"YouTube", "vid", "u", "t", 100, 30, 20⟩ rfl rfl rfl).2.2⟩

/-! ## Claim C4 — upsert deduplication (corrected) -/

/-- Counterexample to claim C4 as stated: a batch containing two items with
the same `external_id` (`"vid_a"`), upserted into an empty store, creates
both — the store then holds two live records with the same `external_id`
(and the returned count, 2, does equal the number created). -/
theorem upsert_dedup_c4_counterexample :
    (upsert_content_items []
      [⟨"YouTube", "vid_a", "u", "t", 1, 1, 0⟩,
       ⟨"YouTube", "vid_a", "u2", "t2", 2, 1, 0⟩]).1 = 2 ∧
    existing_external_ids
      ([] ++ created_records []
        [⟨"YouTube", "vid_a", "u", "t", 1, 1, 0⟩,
         ⟨"YouTube", "vid_a", "u2", "t2", 2, 1, 0⟩]) = ["vid_a", "vid_a"] ∧
    ¬ (existing_external_ids
        ([] ++ created_records []
          [⟨"YouTube", "vid_a", "u", "t", 1, 1, 0⟩,
           ⟨"YouTube", "vid_a", "u2", "t2", 2, 1, 0⟩])).Nodup :=
  ⟨by decide, by decide, by decide⟩

/-- Claim C4 (amended): upsert creates only items whose `external_id` is
not among the store's live (non-empty) `external_id`s, and returns the
number of records created.  It does **not** deduplicate within the batch:
the no-two-live-records invariant after the upsert therefore holds provided
the prior store has no duplicate live id and the batch's `external_id`s are
pairwise distinct (a batch with an internal duplicate violates it, see the
counterexample). -/
theorem upsert_dedup_c4 (records : List MWSRecord) (items : List ContentItemIn)
    (h1 : (existing_external_ids records).Nodup)
    (h2 : (items.map (fun it => it.external_id)).Nodup) :
    (∀ p ∈ (upsert_content_items records items).2,
      p.external_id ∉ existing_external_ids records) ∧
    (upsert_content_items records items).1 = (upsert_content_items records items).2.length ∧
    (existing_external_ids (records ++ created_records records items)).Nodup := by
  have hnew : ∀ it ∈ new_items records items,
      it.external_id ∉ existing_external_ids records := by
    intro it hit
    have := List.mem_filter.mp hit
    simpa using this.2
  refine ⟨?_, ?_, ?_⟩
  · intro p hp
    rcases List.mem_map.mp hp with ⟨it, hit, rfl⟩
    exact hnew it hit
  · simp [upsert_content_items]
  · have happ : existing_external_ids (records ++ created_records records items) =
        existing_external_ids records ++ existing_external_ids (created_records records items) := by
      simp [existing_external_ids]
    rw [happ]
    have hmap : (created_records records items).map (fun r => r.external_id) =
        (new_items records items).map (fun it => it.external_id) := by
      simp only [created_records, upsert_content_items, List.map_map]
      rfl
    have hsub : List.Sublist ((new_items records items).map (fun it => it.external_id))
        (items.map (fun it => it.external_id)) :=
      (List.filter_sublist items).map _
    have hB : (existing_external_ids (created_records records items)).Nodup := by
      rw [existing_external_ids, hmap]
      exact ((h2.sublist hsub)).filter _
    refine h1.append hB (List.disjoint_left.mpr ?_)
    intro a ha hb
    have hb' : a ∈ (created_records records items).map (fun r => r.external_id) :=
      List.mem_of_mem_filter hb
    rw [hmap] at hb'
    rcases List.mem_map.mp hb' with ⟨it, hit, rfl⟩
    exact hnew it hit ha

/-- Witness for C4 (amended): a store already holding `"vid_x"` upserted
with a batch of distinct ids `["vid_x", "vid_b"]` creates only `"vid_b"`
and keeps the live ids duplicate-free. -/
theorem upsert_dedup_c4_witness :
    (existing_external_ids ([⟨"vid_x"⟩] ++ created_records [⟨"vid_x"⟩]
      [⟨"YouTube", "vid_x", "u", "t", 1, 1, 0⟩,
       ⟨"YouTube", "vid_b", "u2", "t2", 2, 1, 0⟩])).Nodup ∧
    (upsert_content_items [⟨"vid_x"⟩]
      [⟨"YouTube", "vid_x", "u", "t", 1, 1, 0⟩,
       ⟨"YouTube", "vid_b", "u2", "t2", 2, 1, 0⟩]).1 = 1 :=
  ⟨(upsert_dedup_c4 [⟨"vid_x"⟩]
      [⟨"YouTube", "vid_x", "u", "t", 1, 1, 0⟩,
       ⟨"YouTube", "vid_b", "u2", "t2", 2, 1, 0⟩] (by decide) (by decide)).2.2,
   by decide⟩

/-! ## Claim C3 — URL sub-parsing strips `/`, `?`, `&` but not `#` -/

/-- Shape of the `channel_id` result of `_extract_ids_from_url`: it is
populated only by the channel branch, as the head of a `/`-`?`-`&` split
chain. -/
theorem extract_channel_id_shape (s : String) :
    (_extract_ids_from_url s).channel_id = none ∨
    ∃ after, (_extract_ids_from_url s).channel_id =
      some (pySplitHead "&" (pySplitHead "?" (pySplitHead "/" after))) := by
  by_cases h1 : pyIn "youtu.be/" (pyStrip s) = true
  · left; simp [_extract_ids_from_url, h1]
  by_cases h2 : (pyIn "youtube.com/watch" (pyStrip s) && pyIn "v=" (pyStrip s)) = true
  · left; simp [_extract_ids_from_url, h1, h2]
  by_cases h3 : pyIn "youtube.com/channel/" (pyStrip s) = true
  · right
    exact ⟨pySplitLast "youtube.com/channel/" (pyStrip s),
      by simp [_extract_ids_from_url, h1, h2, h3]⟩
  by_cases h4 : pyIn "youtube.com/@" (pyStrip s) = true
  · left; simp [_extract_ids_from_url, h1, h2, h3, h4]
  · left; simp [_extract_ids_from_url, h1, h2, h3, h4]

/-- Shape of the `handle` result of `_extract_ids_from_url`: it is populated
only by the handle branch, as `"@"` prepended to the head of a `/`-`?`-`&`
split chain. -/
theorem extract_handle_shape (s : String) :
    (_extract_ids_from_url s).handle = none ∨
    ∃ after, (_extract_ids_from_url s).handle =
      some ("@" ++ pySplitHead "&" (pySplitHead "?" (pySplitHead "/" after))) := by
  by_cases h1 : pyIn "youtu.be/" (pyStrip s) = true
  · left; simp [_extract_ids_from_url, h1]
  by_cases h2 : (pyIn "youtube.com/watch" (pyStrip s) && pyIn "v=" (pyStrip s)) = true
  · left; simp [_extract_ids_from_url, h1, h2]
  by_cases h3 : pyIn "youtube.com/channel/" (pyStrip s) = true
  · left; simp [_extract_ids_from_url, h1, h2, h3]
  by_cases h4 : pyIn "youtube.com/@" (pyStrip s) = true
  · right
    exact ⟨pySplitLast "youtube.com/@" (pyStrip s),
      by simp [_extract_ids_from_url, h1, h2, h3, h4]⟩
  · left; simp [_extract_ids_from_url, h1, h2, h3, h4]

/-- The head of the `/`-then-`?`-then-`&` split chain contains none of the
three separator characters. -/
theorem pySplitHead_chain_clean (after : String) :
    pyIn "/" (pySplitHead "&" (pySplitHead "?" (pySplitHead "/" after))) = false ∧
    pyIn "?" (pySplitHead "&" (pySplitHead "?" (pySplitHead "/" after))) = false ∧
    pyIn "&" (pySplitHead "&" (pySplitHead "?" (pySplitHead "/" after))) = false := by
  refine ⟨?_, ?_, ?_⟩
  · rw [Bool.eq_false_iff]
    intro h
    have hm := (containsSub_single '/' _).mp h
    exact not_mem_beforeFirst_single '/' _ (mem_beforeFirstAux (mem_beforeFirstAux hm))
  · rw [Bool.eq_false_iff]
    intro h
    have hm := (containsSub_single '?' _).mp h
    exact not_mem_beforeFirst_single '?' _ (mem_beforeFirstAux hm)
  · rw [Bool.eq_false_iff]
    intro h
    have hm := (containsSub_single '&' _).mp h
    exact not_mem_beforeFirst_single '&' _ hm

/-- Counterexample to claim C3 as stated: for the channel URL
`.../channel/UCabcdefghijklmnopqr#about`, the extracted channel id keeps
the fragment — the code cuts at `/`, `?` and `&` but never at `#`. -/
theorem extract_url_c3_counterexample :
    (_extract_ids_from_url
      "https://www.youtube.com/channel/UCabcdefghijklmnopqr#about").channel_id =
      some "UCabcdefghijklmnopqr#about" ∧
    ("UCabcdefghijklmnopqr#about" : String) ≠ "UCabcdefghijklmnopqr" :=
  ⟨by decide, by decide⟩

/-- Claim C3 (amended): the extracted channel id / handle is the path
segment cut at the next `/`, `?` or `&` — so trailing slashes and query
parameters are stripped and the extracted value never contains one of those
three characters — but fragment identifiers are **not** stripped:
`.../channel/<ID>/?q=1` yields `<ID>`, while `.../channel/<ID>#<fragment>`
yields `<ID>#<fragment>`. -/
theorem extract_url_c3 :
    (∀ s cid, (_extract_ids_from_url s).channel_id = some cid →
      pyIn "/" cid = false ∧ pyIn "?" cid = false ∧ pyIn "&" cid = false) ∧
    (∀ s hd, (_extract_ids_from_url s).handle = some hd →
      ∃ t, hd = "@" ++ t ∧
        pyIn "/" t = false ∧ pyIn "?" t = false ∧ pyIn "&" t = false) ∧
    _extract_ids_from_url "https://www.youtube.com/channel/UCabcdefghijklmnopqr/?q=1" =
      ⟨some "UCabcdefghijklmnopqr", none, none⟩ ∧
    _extract_ids_from_url "https://www.youtube.com/channel/UCabcdefghijklmnopqr#about" =
      ⟨some "UCabcdefghijklmnopqr#about", none, none⟩ := by
  refine ⟨?_, ?_, by decide, by decide⟩
  · intro s cid h
    rcases extract_channel_id_shape s with hn | ⟨after, he⟩
    · rw [hn] at h
      exact Option.noConfusion h
    · rw [he] at h
      obtain rfl : pySplitHead "&" (pySplitHead "?" (pySplitHead "/" after)) = cid :=
        Option.some.injEq .. ▸ h
      exact pySplitHead_chain_clean after
  · intro s hd h
    rcases extract_handle_shape s with hn | ⟨after, he⟩
    · rw [hn] at h
      exact Option.noConfusion h
    · rw [he] at h
      obtain rfl : "@" ++ pySplitHead "&" (pySplitHead "?" (pySplitHead "/" after)) = hd :=
        Option.some.injEq .. ▸ h
      exact ⟨pySplitHead "&" (pySplitHead "?" (pySplitHead "/" after)), rfl,
        pySplitHead_chain_clean after⟩

/-- Witness for C3 (amended): the extracted id of the query-parameter URL
contains none of `/`, `?`, `&`. -/
theorem extract_url_c3_witness :
    pyIn "/" "UCabcdefghijklmnopqr" = false ∧
    pyIn "?" "UCabcdefghijklmnopqr" = false ∧
    pyIn "&" "UCabcdefghijklmnopqr" = false :=
  extract_url_c3.1 "https://www.youtube.com/channel/UCabcdefghijklmnopqr/?q=1"
    "UCabcdefghijklmnopqr" (by decide)

/-! ## Claim C1 — metric classification precedence (corrected) -/

/-- Spec-side predicate: the question contains a popularity-related keyword
(`"популяр"`, `"больше всего просмотров"`, `"самое популярное"`), checked on
the lower-cased text like the classifier does. -/
def specPopularityKeyword (question : String) : Bool :=
  let q := pyLower question
  pyIn "популяр" q || pyIn "больше всего просмотров" q || pyIn "самое популярное" q

/-- Spec-side predicate: the question contains an engagement/likes/comments
keyword (`"вовлеч"`, `"engagement"`, `"лайк"`, `"реакц"`, `"коммент"`),
checked on the lower-cased text like the classifier does. -/
def specEngagementKeyword (question : String) : Bool :=
  let q := pyLower question
  pyIn "вовлеч" q || pyIn "engagement" q || pyIn "лайк" q || pyIn "реакц" q ||
    pyIn "коммент" q

/-- Counterexample to claim C1 as stated: the question
`"самое популярное видео по вовлечённости"` contains both an engagement
keyword (`"вовлеч"`) and popularity keywords, and the classifier returns
`metric = "views"`, not `"engagement"` — the popularity check runs first. -/
theorem classify_metric_c1_counterexample :
    specEngagementKeyword "самое популярное видео по вовлечённости" = true ∧
    specPopularityKeyword "самое популярное видео по вовлечённости" = true ∧
    (_classify_question "самое популярное видео по вовлечённости").metric = "views" ∧
    ("views" : String) ≠ "engagement" :=
  ⟨by decide, by decide, by decide, by decide⟩

/-- Claim C1 (amended): the classifier's metric is `"views"` whenever the
text contains a popularity keyword — that check takes precedence; only
otherwise is it `"engagement"` when an engagement/likes/comments keyword is
present; and it defaults to `"views"` when neither kind is present.  In
particular a question containing both kinds is classified `"views"`. -/
theorem classify_metric_c1 (q : String) :
    (specPopularityKeyword q = true → (_classify_question q).metric = "views") ∧
    (specPopularityKeyword q = false → specEngagementKeyword q = true →
      (_classify_question q).metric = "engagement") ∧
    (specPopularityKeyword q = false → specEngagementKeyword q = false →
      (_classify_question q).metric = "views") := by
  refine ⟨fun hp => ?_, fun hp he => ?_, fun hp he => ?_⟩
  · simp only [specPopularityKeyword] at hp
    simp only [_classify_question]
    rw [if_pos hp]
  · simp only [specPopularityKeyword] at hp
    simp only [specEngagementKeyword] at he
    simp only [_classify_question]
    rw [if_neg (by simp [hp]),
      if_pos (by simp only [Bool.or_eq_true] at he ⊢; tauto)]
  · simp only [specPopularityKeyword] at hp
    simp only [specEngagementKeyword] at he
    simp only [_classify_question]
    rw [if_neg (by simp [hp]),
      if_neg (by
        intro hcond
        rw [Bool.eq_false_iff] at he
        apply he
        simp only [Bool.or_eq_true] at hcond ⊢
        tauto)]

/-- Witness for C1 (amended): with no popularity keyword and the engagement
root `"вовлеч"` present, the metric is `"engagement"`. -/
theorem classify_metric_c1_witness :
    (_classify_question "самая высокая вовлеченность").metric = "engagement" :=
  (classify_metric_c1 "самая высокая вовлеченность").2.1 (by decide) (by decide)

/-! ## Claim C2 — requested count is not clamped (corrected) -/

/-- The last integer literal in the (lower-cased) question text, when there
is one: the value `_detect_top_n` reads off `re.findall(r"\d+", q)[-1]`. -/
def lastIntLiteral (question : String) : Option Nat :=
  ((digitRuns (pyLower question).data).getLast?).map natOfDigits

/-- The word-table fallback of `_detect_top_n`: the first `words_map` entry
whose key occurs in the lower-cased question, else the default 3. -/
def wordLookup (question : String) : Int :=
  match words_map.find? (fun p => pyIn p.1 (pyLower question)) with
  | some p => p.2
  | none => 3

/-- Counterexample to claim C2 as stated: for `"покажи 15 видео"` the last
integer literal is 15 (> 10), and `_detect_top_n` returns the default 3,
not a clamped 10 — an out-of-range literal is ignored, not clamped. -/
theorem detect_top_n_c2_counterexample :
    lastIntLiteral "покажи 15 видео" = some 15 ∧
    _detect_top_n "покажи 15 видео" 3 = 3 ∧
    (3 : Int) ≠ 10 :=
  ⟨by decide, by decide, by decide⟩

/-- Claim C2 (amended): `requested_count` equals the last integer literal
only when that literal already lies in `[1, 10]` (no clamping occurs); when
the literal is outside the range — just as when there is none — the word
table and then the default 3 apply (`wordLookup`); a question containing
`"10"` as its last literal yields 10; and the result always lies in
`[1, 10]`. -/
theorem detect_top_n_c2 (q : String) :
    (∀ n : Nat, lastIntLiteral q = some n → 1 ≤ n → n ≤ 10 →
      _detect_top_n q 3 = (n : Int)) ∧
    (∀ n : Nat, lastIntLiteral q = some n → (n = 0 ∨ 10 < n) →
      _detect_top_n q 3 = wordLookup q) ∧
    (lastIntLiteral q = none → _detect_top_n q 3 = wordLookup q) ∧
    (1 ≤ _detect_top_n q 3 ∧ _detect_top_n q 3 ≤ 10) := by
  have hword : 1 ≤ wordLookup q ∧ wordLookup q ≤ 10 := by
    rw [wordLookup]
    cases hf : words_map.find? (fun p => pyIn p.1 (pyLower q)) with
    | none => norm_num
    | some p =>
      have hp := List.mem_of_find?_eq_some hf
      simp only [words_map, List.mem_cons, List.not_mem_nil, or_false] at hp
      rcases hp with rfl | rfl | rfl | rfl | rfl | rfl <;> norm_num
  cases hL : (digitRuns (pyLower q).data).getLast? with
  | none =>
    have hres : _detect_top_n q 3 = wordLookup q := by
      simp only [_detect_top_n, wordLookup, hL]
    refine ⟨fun n hn _ _ => ?_, fun n hn _ => ?_, fun _ => hres, by rw [hres]; exact hword⟩
    · simp [lastIntLiteral, hL] at hn
    · simp [lastIntLiteral, hL] at hn
  | some ds =>
    have hlit : lastIntLiteral q = some (natOfDigits ds) := by
      simp [lastIntLiteral, hL]
    by_cases hr : 1 ≤ (natOfDigits ds : Int) ∧ (natOfDigits ds : Int) ≤ 10
    · have hres : _detect_top_n q 3 = (natOfDigits ds : Int) := by
        simp only [_detect_top_n, hL]
        rw [if_pos hr]
      refine ⟨fun n hn _ _ => ?_, fun n hn hbad => ?_, fun hn => ?_, ?_⟩
      · rw [hlit] at hn
        obtain rfl := Option.some.inj hn
        exact hres
      · rw [hlit] at hn
        obtain rfl := Option.some.inj hn
        obtain ⟨hr1, hr2⟩ := hr
        rcases hbad with h0 | h10
        · rw [h0] at hr1
          norm_num at hr1
        · exfalso
          have : ((natOfDigits ds : Nat) : Int) ≤ 10 := hr2
          omega
      · rw [hlit] at hn
        exact Option.noConfusion hn
      · rw [hres]
        exact ⟨hr.1, hr.2⟩
    · have hres : _detect_top_n q 3 = wordLookup q := by
        simp only [_detect_top_n, wordLookup, hL]
        rw [if_neg hr]
      refine ⟨fun n hn h1 h10 => ?_, fun n hn _ => hres, fun _ => hres,
        by rw [hres]; exact hword⟩
      · rw [hlit] at hn
        obtain rfl := Option.some.inj hn
        exact absurd ⟨by exact_mod_cast h1, by exact_mod_cast h10⟩ hr

/-- Witness for C2 (amended): `"10 видео"` has last literal 10, which is in
range, so the requested count is 10. -/
theorem detect_top_n_c2_witness :
    lastIntLiteral "10 видео" = some 10 ∧ _detect_top_n "10 видео" 3 = 10 :=
  ⟨by decide, (detect_top_n_c2 "10 видео").1 10 (by decide) (by decide) (by decide)⟩

/-! ## Claim C6 — the generator's ranking -/

/-- Descending instantiation: `pySorted key true` is non-increasing on the
key. -/
theorem pySorted_desc_pairwise {α : Type} (key : α → ℚ) (l : List α) :
    (pySorted key true l).Pairwise (fun a b => key b ≤ key a) := by
  have h := @pySortBy_pairwise _ (fun h x => decide (key x < key h))
    (fun a b hab => by
      simp only [decide_eq_true_eq] at hab
      simp only [decide_eq_false_iff_not]
      exact lt_asymm hab)
    (fun a b c hba hcb => by
      simp only [decide_eq_false_iff_not, not_lt] at hba hcb ⊢
      exact hcb.trans hba)
    l
  refine h.imp ?_
  intro a b hab
  simpa only [decide_eq_false_iff_not, not_lt] using hab

/-- Ascending instantiation: `pySorted key false` is non-decreasing on the
key. -/
theorem pySorted_asc_pairwise {α : Type} (key : α → ℚ) (l : List α) :
    (pySorted key false l).Pairwise (fun a b => key a ≤ key b) := by
  have h := @pySortBy_pairwise _ (fun h x => decide (key h < key x))
    (fun a b hab => by
      simp only [decide_eq_true_eq] at hab
      simp only [decide_eq_false_iff_not]
      exact lt_asymm hab)
    (fun a b c hba hcb => by
      simp only [decide_eq_false_iff_not, not_lt] at hba hcb ⊢
      exact hba.trans hcb)
    l
  refine h.imp ?_
  intro a b hab
  simpa only [decide_eq_false_iff_not, not_lt] using hab

/-- Stability of `pySorted`, phrased on key classes: the elements whose key
equals any fixed value appear in the output exactly as they appear in the
input (same elements, same relative order). -/
theorem pySorted_filter_key {α : Type} (key : α → ℚ) (reverse : Bool) (c : ℚ)
    (l : List α) :
    (pySorted key reverse l).filter (fun y => decide (key y = c)) =
      l.filter (fun y => decide (key y = c)) := by
  apply pySortBy_filter
  intro h x hk hpx
  simp only [decide_eq_true_eq] at hpx
  simp only [decide_eq_false_iff_not]
  cases reverse
  · simp only [Bool.false_eq_true, if_false, decide_eq_true_eq] at hk
    exact hpx ▸ ne_of_lt hk
  · simp only [if_true, decide_eq_true_eq] at hk
    exact hpx ▸ ne_of_gt hk

/-- The 5-item sample of the specification, with views
`[100, 50, 200, 10, 5]`, as raw items. -/
def sampleRaw : List RawItem :=
  [⟨"YouTube", "v1", "", 100, 0, 0⟩, ⟨"YouTube", "v2", "", 50, 0, 0⟩,
   ⟨"YouTube", "v3", "", 200, 0, 0⟩, ⟨"YouTube", "v4", "", 10, 0, 0⟩,
   ⟨"YouTube", "v5", "", 5, 0, 0⟩]

/-- The specification's sample after normalization. -/
def sampleItems : List NItem := _normalize_items sampleRaw

/-- Claim C6: for every non-empty normalized item list and every intent,
`_sort_items` sorts by the intent's metric field (`views` cast to `ℚ`, or
`engagement_rate`), descending for direction best (`worst = false`) and
ascending for direction worst, keeping ties in input relative order (the
key-class filter is preserved), and the generator takes the first
`top_n` items (or fewer when the list is smaller).  On the spec's 5-item
sample with views `[100, 50, 200, 10, 5]`, the top-3 best-by-views list has
views `[200, 100, 50]` and the truncated mean of views is 73. -/
theorem generator_rank_c6 (normalized : List NItem) (metric : String) (worst : Bool)
    (top_n : Nat) (_hne : normalized ≠ []) :
    (_sort_items normalized metric worst).Perm normalized ∧
    (worst = false → (_sort_items normalized metric worst).Pairwise
      (fun a b => keyOf metric b ≤ keyOf metric a)) ∧
    (worst = true → (_sort_items normalized metric worst).Pairwise
      (fun a b => keyOf metric a ≤ keyOf metric b)) ∧
    (∀ c : ℚ, (_sort_items normalized metric worst).filter
        (fun y => decide (keyOf metric y = c)) =
      normalized.filter (fun y => decide (keyOf metric y = c))) ∧
    topListFor normalized metric worst top_n =
      (_sort_items normalized metric worst).take top_n ∧
    (topListFor normalized metric worst top_n).length = min top_n normalized.length ∧
    (∀ x : NItem, keyOf "engagement" x = x.engagement_rate ∧
      keyOf "views" x = (x.views : ℚ)) ∧
    (topListFor sampleItems "views" false 3).map (fun it => it.views) = [200, 100, 50] ∧
    pyInt (_summary_stats sampleItems).1 = 73 := by
  refine ⟨pySortBy_perm _, fun hw => ?_, fun hw => ?_,
    fun c => pySorted_filter_key (keyOf metric) (!worst) c normalized, rfl, ?_, ?_, by decide, ?_⟩
  · subst hw
    exact pySorted_desc_pairwise (keyOf metric) normalized
  · subst hw
    exact pySorted_asc_pairwise (keyOf metric) normalized
  · have hp : (_sort_items normalized metric worst).Perm normalized := pySortBy_perm _
    rw [topListFor, List.length_take, hp.length_eq]
  · intro x
    constructor
    · simp [keyOf]
    · simp [keyOf]
  · have hsum : (_summary_stats sampleItems).1 = 73 := by
      simp only [_summary_stats]
      rw [if_neg (by decide)]
      norm_num [sampleItems, _normalize_items, sampleRaw, normalizeOne]
    rw [hsum]
    decide

/-- Witness for C6 at the spec's sample: top-3 best by views is
`[200, 100, 50]` and the truncated mean of views is 73. -/
theorem generator_rank_c6_witness :
    (topListFor sampleItems "views" false 3).map (fun it => it.views) = [200, 100, 50] ∧
    pyInt (_summary_stats sampleItems).1 = 73 :=
  ⟨(generator_rank_c6 sampleItems "views" false 3 (by decide)).2.2.2.2.2.2.2.1,
   (generator_rank_c6 sampleItems "views" false 3 (by decide)).2.2.2.2.2.2.2.2⟩

end MtsContest
